import Mathlib

/-
Verification of the catcam recording/timelapse/analytics service.

This file gives a shallow embedding, in Lean 4, of the pure logic of the
repository's Python sources:

  * src/timelapse.py : `_parse_recording_timestamp`, `_sort_recordings`,
    `_filter_valid_recordings`, `generate_timelapse`
  * src/main.py      : `get_recording_stats`, `api_stats` (timeline part),
    `api_generate_timelapse`
  * src/config.py    : `Config.load`

Filesystem state is made explicit (a record of day directories, artifact
files and playlist files); `datetime` values are embedded as a civil-date
structure plus epoch-second arithmetic (the proleptic-Gregorian
days-from-civil algorithm also used by CPython's underlying C library);
floating-point times are embedded as exact rationals; Python's banker
rounding `round` is embedded exactly on rationals.  Each definition is
translated directly from the corresponding Python function.
-/

namespace CatCam

/-! ## Calendar and time embedding -/

/-- Civil calendar date, as Python's `datetime.date` (year, month, day). -/
structure Date where
  year : Int
  month : Int
  day : Int
deriving DecidableEq, Repr

/-- Python compares `date` objects lexicographically on (year, month, day);
this embeds `d1 <= d2`. -/
def Date.le (d1 d2 : Date) : Bool :=
  (d1.year < d2.year) ||
  (d1.year = d2.year && d1.month < d2.month) ||
  (d1.year = d2.year && d1.month = d2.month && d1.day ≤ d2.day)

/-- Days since 1970-01-01 of a civil date (proleptic Gregorian), the
standard days-from-civil algorithm used by C libraries backing CPython's
`datetime.timestamp`.  `Int.tdiv` is truncating division, matching C. -/
def daysFromCivil (y m d : Int) : Int :=
  let y1 := if m ≤ 2 then y - 1 else y
  let era := Int.tdiv (if 0 ≤ y1 then y1 else y1 - 399) 400
  let yoe := y1 - era * 400
  let mp := (m + 9) % 12
  let doy := Int.tdiv (153 * mp + 2) 5 + d - 1
  let doe := yoe * 365 + Int.tdiv yoe 4 - Int.tdiv yoe 100 + doy
  era * 146097 + doe - 719468

/-- Datetime as produced by `datetime.strptime`/`datetime.combine`:
a civil date plus wall-clock time of day. -/
structure PDateTime where
  year : Int
  month : Int
  day : Int
  hour : Nat
  minute : Nat
  second : Nat
deriving DecidableEq, Repr

/-- Epoch seconds of a datetime (`datetime.timestamp()`, with the clock
taken as UTC; the uniform timezone offset is irrelevant to every ordering
and difference computed by the program). -/
def PDateTime.timestamp (t : PDateTime) : Int :=
  86400 * daysFromCivil t.year t.month t.day +
    3600 * (t.hour : Int) + 60 * (t.minute : Int) + (t.second : Int)

/-- Epoch seconds of a time-of-day on a given civil date. -/
def epochOf (d : Date) (h m s : Nat) : Int :=
  86400 * daysFromCivil d.year d.month d.day +
    3600 * (h : Int) + 60 * (m : Int) + (s : Int)

/-! ## Python `round` on exact rationals -/

/-- Floor of a rational as an integer (denominator is positive, so
euclidean division of numerator by denominator is the floor). -/
def ratFloor (x : ℚ) : Int := x.num / (x.den : Int)

/-- Python's built-in `round(x)`: round half to even, embedded exactly
on rationals. -/
def pyRound (x : ℚ) : Int :=
  let n := ratFloor x
  if x - n < 1/2 then n
  else if 1/2 < x - n then n + 1
  else if n % 2 = 0 then n else n + 1

/-- Python's `round(x, 1)`: one decimal place, banker rounding. -/
def pyRound1 (x : ℚ) : ℚ := (pyRound (10 * x) : ℚ) / 10

/-! ## Filename timestamp parsing

The recorder names each segment with `strftime("%p-%I-%M-%S")`
(src/recorder.py line 135), e.g. `PM-01-18-00.mp4`.  The parser below
embeds `datetime.strptime(stem, "%p-%I-%M-%S")` on stems of that
zero-padded form: a meridiem marker `AM`/`PM`, a two-digit hour in
`01`..`12`, two-digit minute and second in `00`..`59`; CPython's
`_strptime` then produces the 24-hour value `hour % 12 + (12 if PM)`. -/

/-- Value of an ASCII digit character, `None` for non-digits. -/
def digitVal (c : Char) : Option Nat :=
  if c.isDigit then some (c.toNat - 48) else none

/-- Two-digit decimal field, as matched by a zero-padded strptime field. -/
def parse2 (c1 c2 : Char) : Option Nat := do
  let d1 ← digitVal c1
  let d2 ← digitVal c2
  pure (10 * d1 + d2)

/-- Meridiem marker of `%p`: `false` for AM, `true` for PM. -/
def parseMeridiem (c1 c2 : Char) : Option Bool :=
  if c1 = 'A' ∧ c2 = 'M' then some false
  else if c1 = 'P' ∧ c2 = 'M' then some true
  else none

/-- Character-list worker for `parseStem`: the stem must be exactly
`Xp-hh-mm-ss` (11 characters) with valid field ranges; the result is
(24-hour hour, minute, second). -/
def parseStemList (cs : List Char) : Option (Nat × Nat × Nat) :=
  match cs with
  | [p1, p2, q1, h1, h2, q2, m1, m2, q3, s1, s2] =>
    if q1 = '-' ∧ q2 = '-' ∧ q3 = '-' then do
      let pm ← parseMeridiem p1 p2
      let hh ← parse2 h1 h2
      let mm ← parse2 m1 m2
      let ss ← parse2 s1 s2
      if 1 ≤ hh ∧ hh ≤ 12 ∧ mm ≤ 59 ∧ ss ≤ 59 then
        some (hh % 12 + (if pm then 12 else 0), mm, ss)
      else none
    else none
  | _ => none

/-- Embedding of `datetime.strptime(stem, "%p-%I-%M-%S")`, returning the
24-hour time-of-day fields, or `None` on a `ValueError`. -/
def parseStem (s : String) : Option (Nat × Nat × Nat) :=
  parseStemList s.toList

/-- Embedding of `_parse_recording_timestamp` (src/timelapse.py lines
36-45): `strptime(f"{date} {stem}", "%Y-%m-%d %p-%I-%M-%S")`, i.e. the
stem's time-of-day combined with the target date's calendar day. -/
def parseRecordingTimestamp (targetDate : Date) (stem : String) :
    Option PDateTime :=
  (parseStem stem).map fun t =>
    ⟨targetDate.year, targetDate.month, targetDate.day, t.1, t.2.1, t.2.2⟩

/-! Rendering of a stem of the documented form, used to quantify over
"every filename of the form AM|PM-hh-mm-ss". -/

/-- ASCII digit character of a value below ten. -/
def digitChar (n : Nat) : Char := Char.ofNat (48 + n)

/-- Two zero-padded decimal digits of `n < 100`. -/
def twoDigits (n : Nat) : List Char := [digitChar (n / 10), digitChar (n % 10)]

/-- The stem `AM-hh-mm-ss` / `PM-hh-mm-ss` for 12-hour fields
(`pm` selects the meridiem marker). -/
def renderStem (pm : Bool) (h m s : Nat) : String :=
  String.mk ((if pm then 'P' else 'A') :: 'M' :: '-' ::
    (twoDigits h ++ '-' :: (twoDigits m ++ '-' :: twoDigits s)))

/-- The standard 12-hour to 24-hour conversion, written from the spec's
words ("recovers the correct 24-hour timestamp"): 12 AM is hour 0,
12 PM is hour 12, other hours keep their value (+12 in the PM half). -/
def spec24Hour (pm : Bool) (h : Nat) : Nat :=
  if pm then (if h = 12 then 12 else h + 12)
  else (if h = 12 then 0 else h)

/-! ## Lemmas: digit parsing round-trips -/

theorem digitVal_digitChar (d : Nat) (hd : d < 10) :
    digitVal (digitChar d) = some d := by
  interval_cases d <;> decide

theorem parse2_twoDigits (n : Nat) (hn : n < 100) :
    parse2 (digitChar (n / 10)) (digitChar (n % 10)) = some n := by
  have h1 : n / 10 < 10 := by omega
  have h2 : n % 10 < 10 := Nat.mod_lt _ (by norm_num)
  simp [parse2, digitVal_digitChar _ h1, digitVal_digitChar _ h2]
  omega

/-- C1. For every filename stem of the form `AM|PM-hh-mm-ss` (12-hour
clock, `hh` in 01..12, `mm`,`ss` in 00..59) combined with a calendar date
as day context, `_parse_recording_timestamp` recovers the correct absolute
24-hour timestamp (`spec24Hour` is the textbook 12-to-24-hour conversion);
in particular `"PM-01-18-00"` with date 2024-03-01 parses to
2024-03-01T13:18:00. -/
theorem parse_recording_timestamp_correct (d : Date) (pm : Bool)
    (h m s : Nat) (hh1 : 1 ≤ h) (hh2 : h ≤ 12) (hm : m ≤ 59) (hs : s ≤ 59) :
    parseRecordingTimestamp d (renderStem pm h m s) =
      some ⟨d.year, d.month, d.day, spec24Hour pm h, m, s⟩ ∧
    parseRecordingTimestamp ⟨2024, 3, 1⟩ "PM-01-18-00" =
      some ⟨2024, 3, 1, 13, 18, 0⟩ := by
  constructor
  · have e1 := parse2_twoDigits h (by omega)
    have e2 := parse2_twoDigits m (by omega)
    have e3 := parse2_twoDigits s (by omega)
    show (parseStemList _).map _ = _
    simp only [renderStem, twoDigits, String.toList]
    cases pm <;>
      simp [parseStemList, parseMeridiem, e1, e2, e3, hh1, hh2, hm, hs,
        spec24Hour] <;>
      split_ifs <;> omega
  · decide

/-- Witness for C1: the concrete instance named by the spec, obtained by
applying the theorem at `pm := true`, `h := 1`, `m := 18`, `s := 0`. -/
theorem parse_recording_timestamp_correct_witness :
    parseRecordingTimestamp ⟨2024, 3, 1⟩ (renderStem true 1 18 0) =
      some ⟨2024, 3, 1, 13, 18, 0⟩ := by
  have h := parse_recording_timestamp_correct ⟨2024, 3, 1⟩ true 1 18 0
    (by decide) (by decide) (by decide) (by decide)
  exact h.1.trans (by decide)

/-! ## Segment files

One segment file as seen through the filesystem during one analyzer or
timelapse run (the run is modelled against a static snapshot: `glob`
returns the listed files, `stat` reads the recorded attributes, and
`onDisk = false` marks a path whose `stat` raises `FileNotFoundError`).
`mtime`/`ctime` are POSIX float timestamps, embedded as exact rationals. -/
structure SegFile where
  stem : String
  onDisk : Bool
  size : Nat
  mtime : ℚ
  ctime : ℚ
deriving DecidableEq, Repr

/-- Python's `sorted`/`list.sort` is a stable sort; `List.insertionSort`
is extensionally the same function on every list, and is used as the
embedding of `sorted(files, key=...)`. -/
def sortByMtime (files : List SegFile) : List SegFile :=
  List.insertionSort (fun a b => a.mtime ≤ b.mtime) files

/-! ## TimelineAnalyzer: `get_recording_stats` (src/main.py lines 292-364) -/

/-- Gap record as appended to `stats["gaps"]`; the human-readable
`"%I:%M %p"` strings of `start`/`end` are represented by the underlying
timestamps they format. -/
structure GapRec where
  start : ℚ
  stop : ℚ
  durationMin : Int
deriving DecidableEq, Repr

/-- Entry of `stats["recent_files"]`; the `"%I:%M %p"` display string is
represented by the mtime it formats. -/
structure RecentFile where
  name : String
  sizeMb : ℚ
  mtime : ℚ
deriving DecidableEq, Repr

/-- Aggregate result of `get_recording_stats`. -/
structure Stats where
  filesToday : Nat
  totalHours : ℚ
  totalSizeMb : ℚ
  avgSizeMb : ℚ
  estBitrateMbps : Option ℚ
  gaps : List GapRec
  recentFiles : List RecentFile
deriving DecidableEq, Repr

/-- The initial `stats` dictionary (src/main.py lines 294-302), which is
returned unchanged when the directory is missing or empty. -/
def emptyStats : Stats := ⟨0, 0, 0, 0, none, [], []⟩

/-- Embedding of `segment_seconds = int(segment_time) if segment_time
else 900` (src/main.py line 320): `0` is falsy in Python. -/
def effSeg (segmentTime : Int) : Int :=
  if segmentTime = 0 then 900 else segmentTime

/-- Per-adjacent-pair gap test of the loop at src/main.py lines 342-359:
`gap = curr_mtime - prev_mtime - segment_seconds`; a record is appended
iff `gap > threshold` with `threshold = segment_seconds * 2`. -/
def gapRecOfPair (seg : Int) (p c : SegFile) : Option GapRec :=
  let gap : ℚ := c.mtime - p.mtime - (seg : ℚ)
  if (seg : ℚ) * 2 < gap then
    some ⟨p.mtime + (seg : ℚ), c.mtime, pyRound (gap / 60)⟩
  else none

/-- All gap records of a sorted file list (adjacent pairs in order). -/
def gapsOf (seg : Int) (files : List SegFile) : List GapRec :=
  (files.zip files.tail).filterMap fun pc => gapRecOfPair seg pc.1 pc.2

/-- Embedding of `get_recording_stats(today_path, segment_time)`
(src/main.py lines 292-364).  `dirExists` is `today_path.exists()`;
`rawFiles` is the glob listing; sizes are summed in bytes and converted
with Python's `round(x, 1)`. -/
def getRecordingStats (dirExists : Bool) (rawFiles : List SegFile)
    (segmentTime : Int) : Stats :=
  if !dirExists then emptyStats
  else
    let files := sortByMtime rawFiles
    if files.isEmpty then emptyStats
    else
      let n := files.length
      let totalSize : Nat := (files.map (·.size)).sum
      let totalSizeMb := pyRound1 ((totalSize : ℚ) / (1024 * 1024))
      let avgSizeMb := pyRound1 (totalSizeMb / (n : ℚ))
      let seg := effSeg segmentTime
      let totalHours := pyRound1 ((n : ℚ) * (seg : ℚ) / 3600)
      let estBitrate :=
        if 0 < avgSizeMb ∧ 0 < seg then
          some (pyRound1 (avgSizeMb * 1024 * 1024 * 8 / (seg : ℚ) / 1000000))
        else none
      let recent := ((files.drop (n - 8)).reverse).map fun f =>
        (⟨f.stem ++ ".mp4", pyRound1 ((f.size : ℚ) / (1024 * 1024)),
          f.mtime⟩ : RecentFile)
      { filesToday := n
        totalHours := totalHours
        totalSizeMb := totalSizeMb
        avgSizeMb := avgSizeMb
        estBitrateMbps := estBitrate
        gaps := gapsOf seg files
        recentFiles := recent }

/-! ## TimelineAnalyzer: timeline loop of `api_stats`
(src/main.py lines 445-500) -/

/-- Per-file start/duration computation of the timeline loop (src/main.py
lines 472-496).  `hot` is `f == latest and age < 20` (the most-recent file
while its last write is under 20 seconds old).  On a parse success,
`duration = mtime - start`, clamped to `segment_limit_seconds` when
non-positive; on a `ValueError` the duration falls back to
`segment_limit_seconds`, except that the hot latest file uses
`mtime - st_ctime` (no sign check), and `start = mtime - duration`. -/
def fileStartDuration (today : Date) (segLimit : Int) (hot : Bool)
    (f : SegFile) : ℚ × ℚ :=
  match parseStem f.stem with
  | some t =>
    let startTs : ℚ := (epochOf today t.1 t.2.1 t.2.2 : ℚ)
    let dur := f.mtime - startTs
    if dur ≤ 0 then (f.mtime - (segLimit : ℚ), (segLimit : ℚ))
    else (startTs, dur)
  | none =>
    if hot then (f.ctime, f.mtime - f.ctime)
    else (f.mtime - (segLimit : ℚ), (segLimit : ℚ))

/-- Timeline entries (offset/width percentages of a 24-hour day) for the
day's files; the loop runs over the listing sorted by mtime descending
(`files.sort(key=..., reverse=True)`, a stable descending sort), with
`latest = files[0]` and `age = now - latest mtime`.  The `"%.2f%%"`
format strings are represented by the percentages they format. -/
def buildTimeline (today : Date) (now : ℚ) (segLimit : Int)
    (files : List SegFile) : List (ℚ × ℚ) :=
  match List.insertionSort (fun a b => b.mtime ≤ a.mtime) files with
  | [] => []
  | latest :: rest =>
    let age := now - latest.mtime
    let startOfDay : ℚ := (epochOf today 0 0 0 : ℚ)
    (latest :: rest).map fun f =>
      let hot := decide (f = latest) && decide (age < 20)
      let sd := fileStartDuration today segLimit hot f
      (max 0 ((sd.1 - startOfDay) / 86400 * 100), sd.2 / 86400 * 100)

/-- The `files_today` / `timeline_segments` part of `api_stats`
(src/main.py lines 426-427 and 445-500): both stay zero/empty unless
`today_path.exists()`, and the timeline loop only runs on a non-empty
listing. -/
def apiFileSection (dirExists : Bool) (files : List SegFile)
    (today : Date) (now : ℚ) (segLimit : Int) : Nat × List (ℚ × ℚ) :=
  if dirExists then (files.length, buildTimeline today now segLimit files)
  else (0, [])

/-! ## C6: zero files never raise, everything zeroed -/

/-- C6. For a day with a missing segment directory or zero segment files,
the analyzer returns `files_today = 0`, an empty timeline, zero gap
records and zeroed/empty aggregates, and (being a total function) does
not raise. -/
theorem stats_empty_day_zeroed (dirExists : Bool) (rawFiles : List SegFile)
    (segmentTime : Int) (today : Date) (now : ℚ)
    (h : dirExists = false ∨ rawFiles = []) :
    getRecordingStats dirExists rawFiles segmentTime = emptyStats ∧
    apiFileSection dirExists rawFiles today now segmentTime = (0, []) := by
  rcases h with h | h
  · subst h
    constructor
    · simp [getRecordingStats]
    · simp [apiFileSection]
  · subst h
    constructor
    · cases dirExists <;>
        simp [getRecordingStats, sortByMtime, List.insertionSort]
    · cases dirExists <;>
        simp [apiFileSection, buildTimeline, List.insertionSort]

/-- Witness for C6: the concrete empty day. -/
theorem stats_empty_day_zeroed_witness :
    getRecordingStats true [] 900 = emptyStats ∧
    apiFileSection true [] ⟨2024, 3, 1⟩ 0 900 = (0, []) :=
  stats_empty_day_zeroed true [] 900 ⟨2024, 3, 1⟩ 0 (Or.inr rfl)

/-! ## C7: bitrate estimate formula -/

/-- C7. Whenever the computed `avg_size_mb` is positive and the effective
segment length is positive, `est_bitrate_mbps` equals
`round(avg_size_mb * 1024 * 1024 * 8 / segment_seconds / 1_000_000, 1)`
(src/main.py lines 323-327). -/
theorem est_bitrate_formula (dirExists : Bool) (rawFiles : List SegFile)
    (segmentTime : Int)
    (h1 : 0 < (getRecordingStats dirExists rawFiles segmentTime).avgSizeMb)
    (h2 : 0 < effSeg segmentTime) :
    (getRecordingStats dirExists rawFiles segmentTime).estBitrateMbps =
      some (pyRound1
        ((getRecordingStats dirExists rawFiles segmentTime).avgSizeMb *
          1024 * 1024 * 8 / (effSeg segmentTime : ℚ) / 1000000)) := by
  by_cases hd : dirExists
  · by_cases he : (sortByMtime rawFiles).isEmpty
    · simp [getRecordingStats, hd, he, emptyStats] at h1
    · simp only [getRecordingStats, hd, he, Bool.not_true, Bool.not_false,
        if_false, if_true, Bool.false_eq_true, ite_false, ite_true] at h1 ⊢
      rw [if_pos ⟨h1, h2⟩]
  · simp [getRecordingStats, hd, emptyStats] at h1

/-- Witness for C7: a day with one 94371840-byte (90 MB) segment and
`SEGMENT_TIME = 900` gives `avg_size_mb = 90` and
`est_bitrate_mbps = round(90*1024*1024*8/900/1_000_000, 1)`. -/
theorem est_bitrate_formula_witness :
    (getRecordingStats true [⟨"AM-01-00-00", true, 94371840, 900, 0⟩]
        900).avgSizeMb = 90 ∧
    (getRecordingStats true [⟨"AM-01-00-00", true, 94371840, 900, 0⟩]
        900).estBitrateMbps =
      some (pyRound1 ((90 : ℚ) * 1024 * 1024 * 8 / 900 / 1000000)) := by
  have havg : (getRecordingStats true
      [⟨"AM-01-00-00", true, 94371840, 900, 0⟩] 900).avgSizeMb = 90 := by
    norm_num [getRecordingStats, sortByMtime, List.insertionSort,
      pyRound1, pyRound, ratFloor]
  refine ⟨havg, ?_⟩
  have h := est_bitrate_formula true
    [⟨"AM-01-00-00", true, 94371840, 900, 0⟩] 900
    (by rw [havg]; norm_num) (by norm_num [effSeg])
  rw [h, havg]
  norm_num [effSeg]

/-! ## C2: gap emission condition -/

/-- Parsed start time of a segment on a given day, as an epoch second
(what the claim calls "the parsed start time of the later segment"). -/
def parsedStartOn (today : Date) (f : SegFile) : Option ℚ :=
  (parseStem f.stem).map fun t =>
    ((epochOf today t.1 t.2.1 t.2.2 : Int) : ℚ)

/-- C2 as stated by the spec: for every adjacent pair of the day's
segment files in mtime order, a gap record is emitted iff
`next.start - prev.end > 2 * segment_seconds` where `next.start` is the
PARSED start time of the later segment and `prev.end` the mtime of the
earlier one, and each emitted record has
`duration_min = round(gap_seconds / 60)` for that same `gap_seconds`. -/
def gapClaimStated (today : Date) (rawFiles : List SegFile)
    (segmentTime : Int) : Prop :=
  ∀ p c, (p, c) ∈ (sortByMtime rawFiles).zip (sortByMtime rawFiles).tail →
    ∀ s, parsedStartOn today c = some s →
      (((gapRecOfPair (effSeg segmentTime) p c).isSome) ↔
        (effSeg segmentTime : ℚ) * 2 < s - p.mtime) ∧
      ∀ g, gapRecOfPair (effSeg segmentTime) p c = some g →
        g.durationMin = pyRound ((s - p.mtime) / 60)

/-- Counterexample to C2 as stated: two parseable segments on
1970-01-01 with `SEGMENT_TIME = 900`; the earlier ends (mtime) at 4500,
the later starts (parsed) at 9000 but has mtime 6500.  The parsed-start
gap is 4500 > 1800, so the claim demands a gap record, but the code
computes `gap = 6500 - 4500 - 900 = 1100 ≤ 1800` from mtimes alone and
emits nothing. -/
theorem gap_claim_counterexample :
    ¬ gapClaimStated ⟨1970, 1, 1⟩
      [⟨"AM-01-00-00", true, 100, 4500, 0⟩,
       ⟨"AM-02-30-00", true, 100, 6500, 0⟩] 900 := by
  intro h
  have hmem : ((⟨"AM-01-00-00", true, 100, 4500, 0⟩ : SegFile),
      (⟨"AM-02-30-00", true, 100, 6500, 0⟩ : SegFile)) ∈
      (sortByMtime [⟨"AM-01-00-00", true, 100, 4500, 0⟩,
        ⟨"AM-02-30-00", true, 100, 6500, 0⟩]).zip
      (sortByMtime [⟨"AM-01-00-00", true, 100, 4500, 0⟩,
        ⟨"AM-02-30-00", true, 100, 6500, 0⟩]).tail := by
    norm_num [sortByMtime, List.insertionSort, List.orderedInsert]
  have hps : parsedStartOn ⟨1970, 1, 1⟩
      ⟨"AM-02-30-00", true, 100, 6500, 0⟩ = some 9000 := by
    have hp : parseStem "AM-02-30-00" = some (2, 30, 0) := by decide
    have he : epochOf ⟨1970, 1, 1⟩ 2 30 0 = 9000 := by decide
    simp [parsedStartOn, hp, he]
  have h2 := (h _ _ hmem 9000 hps).1
  have hnone : gapRecOfPair (effSeg 900) ⟨"AM-01-00-00", true, 100, 4500, 0⟩
      ⟨"AM-02-30-00", true, 100, 6500, 0⟩ = none := by
    rw [gapRecOfPair, if_neg]
    norm_num [effSeg]
  rw [hnone] at h2
  simp only [Option.isSome_none, Bool.false_eq_true, false_iff] at h2
  exact h2 (by norm_num [effSeg])

/-- C2 amended: in `get_recording_stats` the start of the later segment
is never parsed from its filename; it is ESTIMATED as
`next.mtime - segment_seconds`.  For every adjacent pair in mtime order a
gap record is emitted iff `(next.mtime - segment_seconds) - prev.mtime >
2 * segment_seconds`, and each emitted record has
`duration_min = round(gap_seconds / 60)`, `start = prev.mtime +
segment_seconds`, `end = next.mtime` for that estimated `gap_seconds`;
the `gaps` field is exactly the list of these records. -/
theorem gap_emission_amended (dirExists : Bool)
    (rawFiles : List SegFile) (segmentTime : Int) :
    (∀ p c, (p, c) ∈ (sortByMtime rawFiles).zip (sortByMtime rawFiles).tail →
      (((gapRecOfPair (effSeg segmentTime) p c).isSome) ↔
        (effSeg segmentTime : ℚ) * 2 <
          (c.mtime - (effSeg segmentTime : ℚ)) - p.mtime) ∧
      ∀ g, gapRecOfPair (effSeg segmentTime) p c = some g →
        g.durationMin =
          pyRound (((c.mtime - (effSeg segmentTime : ℚ)) - p.mtime) / 60) ∧
        g.start = p.mtime + (effSeg segmentTime : ℚ) ∧ g.stop = c.mtime) ∧
    (dirExists = true →
      (getRecordingStats dirExists rawFiles segmentTime).gaps =
        ((sortByMtime rawFiles).zip (sortByMtime rawFiles).tail).filterMap
          (fun pc => gapRecOfPair (effSeg segmentTime) pc.1 pc.2)) := by
  constructor
  · intro p c _
    constructor
    · rw [gapRecOfPair]
      split_ifs with hc
      · simp only [Option.isSome_some, true_iff]
        linarith
      · simp only [Option.isSome_none, Bool.false_eq_true, false_iff]
        intro hcon
        exact hc (by linarith)
    · intro g hg
      rw [gapRecOfPair] at hg
      split_ifs at hg with hc
      · cases hg
        refine ⟨?_, rfl, rfl⟩
        ring_nf
  · intro hd
    subst hd
    by_cases he : (sortByMtime rawFiles).isEmpty
    · have h0 : sortByMtime rawFiles = [] := List.isEmpty_iff.mp he
      simp [getRecordingStats, he, h0, emptyStats]
    · simp only [getRecordingStats, Bool.not_true, if_false, he,
        Bool.false_eq_true, ite_false]
      simp [gapsOf, he]

/-- Witness for C2's amended theorem: at the counterexample's input the
estimated gap is `1100 ≤ 1800`, so no record is emitted. -/
theorem gap_emission_amended_witness :
    (gapRecOfPair (effSeg 900) ⟨"AM-01-00-00", true, 100, 4500, 0⟩
      ⟨"AM-02-30-00", true, 100, 6500, 0⟩).isSome = false := by
  have hmem : ((⟨"AM-01-00-00", true, 100, 4500, 0⟩ : SegFile),
      (⟨"AM-02-30-00", true, 100, 6500, 0⟩ : SegFile)) ∈
      (sortByMtime [⟨"AM-01-00-00", true, 100, 4500, 0⟩,
        ⟨"AM-02-30-00", true, 100, 6500, 0⟩]).zip
      (sortByMtime [⟨"AM-01-00-00", true, 100, 4500, 0⟩,
        ⟨"AM-02-30-00", true, 100, 6500, 0⟩]).tail := by
    norm_num [sortByMtime, List.insertionSort, List.orderedInsert]
  have h := ((gap_emission_amended true
    [⟨"AM-01-00-00", true, 100, 4500, 0⟩,
     ⟨"AM-02-30-00", true, 100, 6500, 0⟩] 900).1 _ _ hmem).1
  rw [Bool.eq_false_iff]
  intro hs
  have := h.mp hs
  norm_num [effSeg] at this

/-! ## TimelapseJob input preparation
(src/timelapse.py lines 48-71 and 118-131) -/

/-- Embedding of `sort_key` inside `_sort_recordings` (src/timelapse.py
lines 49-56): the parsed timestamp when the stem parses, else the mtime
when `stat` succeeds, else `0` on `FileNotFoundError`. -/
def sortKey (target : Date) (f : SegFile) : ℚ :=
  match parseRecordingTimestamp target f.stem with
  | some t => (t.timestamp : ℚ)
  | none => if f.onDisk then f.mtime else 0

/-- Embedding of `_sort_recordings(target_date, files)` (src/timelapse.py
lines 48-58): Python's stable `sorted` by `sort_key`, embedded as the
extensionally-equal stable insertion sort. -/
def sortRecordings (target : Date) (files : List SegFile) : List SegFile :=
  List.insertionSort (fun a b => sortKey target a ≤ sortKey target b) files

/-- Embedding of `_filter_valid_recordings(files)` (src/timelapse.py
lines 61-71): keep files whose `stat` succeeds with `st_size > 0`. -/
def filterValidRecordings (files : List SegFile) : List SegFile :=
  files.filter fun f => f.onDisk && decide (0 < f.size)

/-- Sort key named by the claim: the parsed start timestamp, with the
file's modification time used only when the name fails to parse. -/
def claimSortKey (target : Date) (f : SegFile) : ℚ :=
  match parseRecordingTimestamp target f.stem with
  | some t => (t.timestamp : ℚ)
  | none => f.mtime

/-- C8. The timelapse input pipeline (`_filter_valid_recordings` then
`_sort_recordings`, as composed at src/timelapse.py lines 125-131)
returns a permutation of exactly the candidate files that are neither
missing nor zero-byte, ordered by parsed start timestamp with mtime as
the key only for unparseable names. -/
theorem timelapse_input_pipeline (target : Date) (files : List SegFile) :
    (sortRecordings target (filterValidRecordings files)).Perm
      (files.filter fun f => !(decide (f.size = 0) || !f.onDisk)) ∧
    (sortRecordings target (filterValidRecordings files)).Pairwise
      (fun a b => claimSortKey target a ≤ claimSortKey target b) := by
  have hperm : (sortRecordings target (filterValidRecordings files)).Perm
      (filterValidRecordings files) :=
    List.perm_insertionSort _ _
  constructor
  · refine hperm.trans ?_
    have : (fun f : SegFile => f.onDisk && decide (0 < f.size)) =
        (fun f : SegFile => !(decide (f.size = 0) || !f.onDisk)) := by
      funext f
      cases hf : f.onDisk <;> cases hs : f.size <;> simp [hf, hs]
    rw [filterValidRecordings, this]
  · have hsorted : (sortRecordings target (filterValidRecordings files)).Pairwise
        (fun a b => sortKey target a ≤ sortKey target b) := by
      haveI : IsTotal SegFile (fun a b => sortKey target a ≤ sortKey target b) :=
        ⟨fun a b => le_total _ _⟩
      haveI : IsTrans SegFile (fun a b => sortKey target a ≤ sortKey target b) :=
        ⟨fun _ _ _ hab hbc => le_trans hab hbc⟩
      exact List.sorted_insertionSort _ _
    refine hsorted.imp_of_mem ?_
    intro a b ha hb hab
    have hkey : ∀ f ∈ sortRecordings target (filterValidRecordings files),
        sortKey target f = claimSortKey target f := by
      intro f hf
      have hmem := hperm.mem_iff.mp hf
      have hdisk : f.onDisk = true := by
        simp only [filterValidRecordings, List.mem_filter,
          Bool.and_eq_true] at hmem
        exact hmem.2.1
      rw [sortKey, claimSortKey]
      cases parseRecordingTimestamp target f.stem <;> simp [hdisk]
    rw [← hkey a ha, ← hkey b hb]
    exact hab

/-! ## C9: per-file duration policy of the timeline loop -/

/-- C9's per-file policy as the claim states it: `duration = mtime -
parsed start`; when parsing fails or that duration is non-positive, fall
back to the configured segment length — except that the hot latest file
uses `mtime - ctime` ONLY WHEN that value is positive. -/
def claimStartDuration (today : Date) (segLimit : Int) (hot : Bool)
    (f : SegFile) : ℚ × ℚ :=
  let fallback : ℚ × ℚ :=
    if hot ∧ 0 < f.mtime - f.ctime then (f.ctime, f.mtime - f.ctime)
    else (f.mtime - (segLimit : ℚ), (segLimit : ℚ))
  match parseStem f.stem with
  | some t =>
    let startTs : ℚ := (epochOf today t.1 t.2.1 t.2.2 : ℚ)
    let dur := f.mtime - startTs
    if dur ≤ 0 then fallback else (startTs, dur)
  | none => fallback

/-- Counterexample to C9 as stated: an unparseable hot latest file whose
`st_ctime` exceeds its mtime (`mtime = 1000`, `ctime = 1005`).  The code
(src/main.py lines 488-496) takes `duration = mtime - ctime = -5` with no
sign check, while the claim demands the fallback segment length 900. -/
theorem timeline_duration_counterexample :
    fileStartDuration ⟨1970, 1, 1⟩ 900 true ⟨"junk", true, 100, 1000, 1005⟩ ≠
      claimStartDuration ⟨1970, 1, 1⟩ 900 true
        ⟨"junk", true, 100, 1000, 1005⟩ := by
  have hp : parseStem "junk" = none := by decide
  simp only [fileStartDuration, claimStartDuration, hp, if_true]
  norm_num

/-- C9 amended: as C9, but the hot-latest exception applies only when the
filename fails to parse, and then uses `duration = mtime - st_ctime`
unconditionally (even when non-positive), with `start = mtime - duration`
in the other fallback cases. -/
theorem timeline_duration_amended (today : Date) (segLimit : Int)
    (hot : Bool) (f : SegFile) :
    (∀ h m s, parseStem f.stem = some (h, m, s) →
      (0 < f.mtime - ((epochOf today h m s : Int) : ℚ) →
        fileStartDuration today segLimit hot f =
          (((epochOf today h m s : Int) : ℚ),
            f.mtime - ((epochOf today h m s : Int) : ℚ))) ∧
      (f.mtime - ((epochOf today h m s : Int) : ℚ) ≤ 0 →
        fileStartDuration today segLimit hot f =
          (f.mtime - (segLimit : ℚ), (segLimit : ℚ)))) ∧
    (parseStem f.stem = none → hot = false →
      fileStartDuration today segLimit hot f =
        (f.mtime - (segLimit : ℚ), (segLimit : ℚ))) ∧
    (parseStem f.stem = none → hot = true →
      fileStartDuration today segLimit hot f =
        (f.ctime, f.mtime - f.ctime)) := by
  refine ⟨?_, ?_, ?_⟩
  · intro h m s hp
    constructor
    · intro hpos
      rw [fileStartDuration, hp]
      simp only
      rw [if_neg (by linarith)]
    · intro hnp
      rw [fileStartDuration, hp]
      simp only
      rw [if_pos hnp]
  · intro hp hh
    rw [fileStartDuration, hp]
    subst hh
    simp
  · intro hp hh
    rw [fileStartDuration, hp]
    subst hh
    simp

/-- Witness for C9's amended theorem: the counterexample file, where the
code's duration is the negative `mtime - ctime = -5`. -/
theorem timeline_duration_amended_witness :
    fileStartDuration ⟨1970, 1, 1⟩ 900 true
      ⟨"junk", true, 100, 1000, 1005⟩ = (1005, -5) := by
  have h := (timeline_duration_amended ⟨1970, 1, 1⟩ 900 true
    ⟨"junk", true, 100, 1000, 1005⟩).2.2 (by decide) rfl
  rw [h]
  norm_num

/-! ## TimelapseJob: `generate_timelapse`
(src/timelapse.py lines 74-188) and its API trigger
(src/main.py lines 744-759) -/

/-- The filesystem state touched by a timelapse run: whether the Box
mount is up and writable, the per-date day directories with their `.mp4`
listings, the timelapse artifacts (`<date>.mp4` in the output directory,
content identified by a byte-content id), and which day directories
currently hold a `playlist.txt`. -/
structure FS where
  boxReady : Bool
  days : List (Date × List SegFile)
  outputs : List (Date × Nat)
  playlists : List Date
deriving DecidableEq, Repr

/-- First-match association lookup (a Python `dict`/directory listing). -/
def findAssoc {α : Type} : List (Date × α) → Date → Option α
  | [], _ => none
  | (d, x) :: rest, t => if t = d then some x else findAssoc rest t

/-- Writing `<date>.mp4` with `ffmpeg ... -y` replaces the artifact. -/
def setOutput (outs : List (Date × Nat)) (d : Date) (c : Nat) :
    List (Date × Nat) := (d, c) :: outs

/-- Creating the day's `playlist.txt`. -/
def addPlaylist (fs : FS) (d : Date) : FS :=
  { fs with playlists := d :: fs.playlists }

/-- The `finally` block: `playlist_path.unlink()` when it exists. -/
def removePlaylist (fs : FS) (d : Date) : FS :=
  { fs with playlists := fs.playlists.filter fun x => x ≠ d }

/-- Structured result of a run: the returned
`{"success": bool, "message": str}` plus whether an encode subprocess was
launched (`subprocess.run(cmd, ...)` at src/timelapse.py line 169). -/
structure TLResult where
  success : Bool
  message : String
  encoded : Bool
deriving DecidableEq, Repr

/-- Decimal digits of `n`, zero-padded to width `w` (Python `%02d`...). -/
def padNum (w : Nat) (n : Nat) : String :=
  let s := toString n
  if s.length < w then String.mk (List.replicate (w - s.length) '0') ++ s
  else s

/-- Python's `str(target_date)` / `strftime('%Y-%m-%d')` for the dates in
play (non-negative years). -/
def dateStr (d : Date) : String :=
  padNum 4 d.year.toNat ++ "-" ++ padNum 2 d.month.toNat ++ "-" ++
    padNum 2 d.day.toNat

/-- Message of the idempotent no-op branch (src/timelapse.py line 107). -/
def alreadyExistsMsg (d : Date) : String :=
  "Timelapse already exists for " ++ dateStr d ++ ". Skipping."

/-- Embedding of `generate_timelapse(target_date, force)`
(src/timelapse.py lines 74-188) against filesystem state `fs`, for an
explicit (already past-dated or not — the function itself has no date
check) target date.  External effects are oracles: `writeOk` is whether
creating/writing `playlist.txt` raises, `encodeOk` whether the ffmpeg
concat encode exits zero, `newContent` the encoded artifact's bytes id.
The manifest body is `sortRecordings target (filterValidRecordings
files)` (see C8); on every path that created it, the `finally` block
removes it. -/
def generateTimelapse (fs : FS) (target : Date) (force writeOk encodeOk : Bool)
    (newContent : Nat) : FS × TLResult :=
  if !fs.boxReady then
    (fs, ⟨false, "Box mount failed or timed out.", false⟩)
  else if (findAssoc fs.outputs target).isSome && !force then
    (fs, ⟨true, alreadyExistsMsg target, false⟩)
  else
    match findAssoc fs.days target with
    | none => (fs, ⟨false, "No folder found for date: " ++ dateStr target,
        false⟩)
    | some files =>
      if files.isEmpty then
        (fs, ⟨false, "No .mp4 files found for " ++ dateStr target ++ ".",
          false⟩)
      else if (filterValidRecordings files).isEmpty then
        (fs, ⟨false, "No valid recordings found for " ++ dateStr target ++ ".",
          false⟩)
      else
        let fs1 := addPlaylist fs target
        if !writeOk then
          (removePlaylist fs1 target,
            ⟨false, "Error during timelapse generation.", false⟩)
        else if encodeOk then
          (removePlaylist
              { fs1 with outputs := setOutput fs1.outputs target newContent }
              target,
            ⟨true, "Timelapse created successfully.", true⟩)
        else
          (removePlaylist fs1 target, ⟨false, "FFmpeg failed.", false⟩)

/-! ## C3: idempotence of the already-exists branch -/

/-- C3. If a `generate_timelapse` call for a date with `force = False`
succeeds, then a second call for the same date with `force = False`
(with any outcome of its external oracles) changes nothing on disk —
in particular the artifact stays byte-identical — launches no encode,
and returns `success = True` with the "already exists" message. -/
theorem timelapse_idempotent (fs : FS) (target : Date) (w1 e1 : Bool)
    (c1 : Nat) (w2 e2 : Bool) (c2 : Nat)
    (h : (generateTimelapse fs target false w1 e1 c1).2.success = true) :
    generateTimelapse (generateTimelapse fs target false w1 e1 c1).1 target
        false w2 e2 c2 =
      ((generateTimelapse fs target false w1 e1 c1).1,
        ⟨true, alreadyExistsMsg target, false⟩) := by
  cases hb : fs.boxReady with
  | false =>
    rw [generateTimelapse] at h
    simp [hb] at h
  | true =>
    by_cases ho : (findAssoc fs.outputs target).isSome
    · have hfst : generateTimelapse fs target false w1 e1 c1 =
          (fs, ⟨true, alreadyExistsMsg target, false⟩) := by
        rw [generateTimelapse]
        simp [hb, ho]
      rw [hfst]
      rw [generateTimelapse]
      simp [hb, ho]
    · rw [generateTimelapse] at h
      simp only [hb, Bool.not_true, Bool.false_eq_true, if_false, ho,
        Bool.false_and, Bool.and_false, ite_false] at h
      cases hd : findAssoc fs.days target with
      | none => simp [hd] at h
      | some files =>
        rw [hd] at h
        by_cases hfe : files.isEmpty
        · simp [hfe] at h
        · by_cases hve : (filterValidRecordings files).isEmpty
          · simp [hfe, hve] at h
          · cases hw : w1 with
            | false => simp [hfe, hve, hw] at h
            | true =>
              cases he : e1 with
              | false => simp [hfe, hve, hw, he] at h
              | true =>
                have hfst : generateTimelapse fs target false true true c1 =
                    (removePlaylist
                      { addPlaylist fs target with
                        outputs :=
                          setOutput (addPlaylist fs target).outputs target c1 }
                      target,
                     ⟨true, "Timelapse created successfully.", true⟩) := by
                  rw [generateTimelapse]
                  simp only [hb, Bool.not_true, Bool.false_eq_true, if_false,
                    ho, Bool.false_and, Bool.and_false, ite_false, hd]
                  simp [hfe, hve, hw, he]
                rw [hfst]
                rw [generateTimelapse]
                simp [removePlaylist, addPlaylist, setOutput, hb, findAssoc]

/-- Witness for C3: a ready mount with one valid segment on 2024-03-01;
the first call encodes successfully, the second is the no-op. -/
theorem timelapse_idempotent_witness :
    generateTimelapse
        (generateTimelapse
          ⟨true, [(⟨2024, 3, 1⟩, [⟨"AM-01-00-00", true, 100, 4500, 0⟩])],
            [], []⟩
          ⟨2024, 3, 1⟩ false true true 7).1
        ⟨2024, 3, 1⟩ false true true 8 =
      ((generateTimelapse
          ⟨true, [(⟨2024, 3, 1⟩, [⟨"AM-01-00-00", true, 100, 4500, 0⟩])],
            [], []⟩
          ⟨2024, 3, 1⟩ false true true 7).1,
        ⟨true, alreadyExistsMsg ⟨2024, 3, 1⟩, false⟩) :=
  timelapse_idempotent
    ⟨true, [(⟨2024, 3, 1⟩, [⟨"AM-01-00-00", true, 100, 4500, 0⟩])], [], []⟩
    ⟨2024, 3, 1⟩ true true 7 true 2 8 (by decide)

/-! ## C5: manifest cleanup on every exit path -/

/-- C5. On every exit path of a run that reaches manifest creation (the
Box mount is up, the already-exists no-op is not taken, the day directory
exists, the listing is non-empty and has valid files) — encode success,
encode failure, or any other exception (`writeOk = false`) — the
`playlist.txt` manifest does not exist after the call returns. -/
theorem manifest_cleanup (fs : FS) (target : Date)
    (force writeOk encodeOk : Bool) (c : Nat) (files : List SegFile)
    (hb : fs.boxReady = true)
    (hskip : force = true ∨ findAssoc fs.outputs target = none)
    (hd : findAssoc fs.days target = some files)
    (hne : files.isEmpty = false)
    (hv : (filterValidRecordings files).isEmpty = false) :
    target ∉
      ((generateTimelapse fs target force writeOk encodeOk c).1).playlists := by
  rw [generateTimelapse]
  have hcond : ((findAssoc fs.outputs target).isSome && !force) = false := by
    rcases hskip with hf | hn
    · simp [hf]
    · simp [hn]
  simp only [hb, Bool.not_true, Bool.false_eq_true, if_false, hcond,
    ite_false, hd]
  simp only [hne, Bool.false_eq_true, if_false, hv, ite_false]
  cases writeOk <;> cases encodeOk <;>
    simp [removePlaylist, addPlaylist, List.mem_filter]

/-- Witness for C5: the concrete ready mount of C3's witness, on the
encode-success path. -/
theorem manifest_cleanup_witness :
    (⟨2024, 3, 1⟩ : Date) ∉
      ((generateTimelapse
        ⟨true, [(⟨2024, 3, 1⟩, [⟨"AM-01-00-00", true, 100, 4500, 0⟩])],
          [], []⟩
        ⟨2024, 3, 1⟩ false true true 7).1).playlists :=
  manifest_cleanup
    ⟨true, [(⟨2024, 3, 1⟩, [⟨"AM-01-00-00", true, 100, 4500, 0⟩])], [], []⟩
    ⟨2024, 3, 1⟩ false true true 7 [⟨"AM-01-00-00", true, 100, 4500, 0⟩]
    rfl (Or.inr rfl) (by decide) (by decide) (by decide)

/-! ## C4: the trigger rejects today and future dates -/

/-- The JSON response of the `/api/generate_timelapse` route. -/
structure ApiResponse where
  success : Bool
  message : String
deriving DecidableEq, Repr

/-- Embedding of `api_generate_timelapse` (src/main.py lines 744-759) for
an already-validated date parameter: the route rejects `target_date >=
datetime.now().date()` before dispatching the background
`generate_timelapse` task (whose eventual effect on the filesystem is
folded into the returned state). -/
def apiGenerateTimelapse (fs : FS) (today target : Date)
    (force writeOk encodeOk : Bool) (c : Nat) : FS × ApiResponse :=
  if Date.le today target then
    (fs, ⟨false, "Cannot generate timelapse for today or future dates."⟩)
  else
    ((generateTimelapse fs target force writeOk encodeOk c).1,
      ⟨true, "Timelapse generation started for " ++ dateStr target ++
        ". Check back in a few minutes."⟩)

/-- C4. For every target date equal to today or later, the timelapse
trigger rejects the request: it returns `success = false`, dispatches no
job and writes no file (the filesystem is returned unchanged), and —
being a total function returning a normal response — the rejection is
fatal only to that call, not to the process. -/
theorem api_rejects_today_and_future (fs : FS) (today target : Date)
    (force writeOk encodeOk : Bool) (c : Nat)
    (h : Date.le today target = true) :
    apiGenerateTimelapse fs today target force writeOk encodeOk c =
      (fs, ⟨false, "Cannot generate timelapse for today or future dates."⟩) := by
  rw [apiGenerateTimelapse, if_pos h]

/-- Witness for C4: both a "today" input (2024-03-01 itself) and a
"tomorrow" input (2024-03-02) are rejected with the state unchanged. -/
theorem api_rejects_today_and_future_witness :
    apiGenerateTimelapse ⟨true, [], [], []⟩ ⟨2024, 3, 1⟩ ⟨2024, 3, 1⟩
        false true true 7 =
      (⟨true, [], [], []⟩,
        ⟨false, "Cannot generate timelapse for today or future dates."⟩) ∧
    apiGenerateTimelapse ⟨true, [], [], []⟩ ⟨2024, 3, 1⟩ ⟨2024, 3, 2⟩
        false true true 7 =
      (⟨true, [], [], []⟩,
        ⟨false, "Cannot generate timelapse for today or future dates."⟩) :=
  ⟨api_rejects_today_and_future _ _ _ _ _ _ _ (by decide),
   api_rejects_today_and_future _ _ _ _ _ _ _ (by decide)⟩

/-! ## ConfigStore: `Config.load` (src/config.py lines 17-40) -/

/-- Removal of leading and trailing characters satisfying `p`
(Python `str.strip`). -/
def stripWith (p : Char → Bool) (cs : List Char) : List Char :=
  ((cs.dropWhile p).reverse.dropWhile p).reverse

/-- Python `line.strip()` (whitespace at both ends). -/
def pyStrip (s : String) : String :=
  String.mk (stripWith Char.isWhitespace s.toList)

/-- Python `s.strip(c)` for a single character `c`. -/
def stripChar (c : Char) (s : String) : String :=
  String.mk (stripWith (fun x => x = c) s.toList)

/-- Value cleanup `v.strip().strip('"').strip("'")` of src/config.py
line 36 (character codes 34 and 39 are the two quote characters). -/
def cleanValue (s : String) : String :=
  stripChar (Char.ofNat 39) (stripChar (Char.ofNat 34) (pyStrip s))

/-- Split at the first `=` (Python `line.split("=", 1)` when `=` occurs). -/
def splitEqList : List Char → Option (List Char × List Char)
  | [] => none
  | c :: rest =>
    if c = '=' then some ([], rest)
    else
      match splitEqList rest with
      | some ab => some (c :: ab.1, ab.2)
      | none => none

/-- One line of the settings file, as filtered by src/config.py lines
31-38: strip, skip when empty / without `=` / starting with `#`, split at
the first `=`, strip the key, clean the value, and skip empty keys.
Returns the key/value pair for well-formed lines, `none` for skipped
ones. -/
def parseLine (line : String) : Option (String × String) :=
  let l := pyStrip line
  if l ≠ "" ∧ l.toList.contains '=' ∧ l.toList.head? ≠ some '#' then
    match splitEqList l.toList with
    | some kv0 =>
      let k := pyStrip (String.mk kv0.1)
      let v := cleanValue (String.mk kv0.2)
      if k ≠ "" then some (k, v) else none
    | none => none
  else none

/-- The `defaults[k] = v` dictionary update for one file line. -/
def applyLine (m : String → Option String) (line : String) :
    String → Option String :=
  match parseLine line with
  | some kv => fun q => if q = kv.1 then some kv.2 else m q
  | none => m

/-- The six keys of the `defaults` dictionary (src/config.py
lines 20-27). -/
def builtinKeys : List String :=
  ["SUBFOLDER", "SEGMENT_TIME", "CAMERA_IP", "CAMERA_USER", "CAMERA_PASS",
    "TIMELAPSE_OUTPUT_DIR"]

/-- Default value of a built-in key: the environment variable when set,
else the hard-coded fallback (`os.getenv(key, fallback)`). -/
def builtinDefault (env : String → Option String) (k : String) : String :=
  if k = "SUBFOLDER" then (env "SUBFOLDER").getD "Other/CatCam"
  else if k = "SEGMENT_TIME" then (env "SEGMENT_TIME").getD "900"
  else if k = "CAMERA_IP" then (env "CAMERA_IP").getD "192.168.1.163"
  else if k = "CAMERA_USER" then (env "CAMERA_USER").getD "admin"
  else if k = "CAMERA_PASS" then (env "CAMERA_PASS").getD "CoonCam19"
  else if k = "TIMELAPSE_OUTPUT_DIR" then
    (env "TIMELAPSE_OUTPUT_DIR").getD "Timelapses"
  else ""

/-- The `defaults` dictionary as a finite mapping: exactly the six
built-in keys are bound. -/
def defaultsFor (env : String → Option String) : String → Option String :=
  fun k => if k ∈ builtinKeys then some (builtinDefault env k) else none

/-- Embedding of `Config.load()`: `file = none` is a missing settings
file (the `exists()` check fails), otherwise the file's lines are folded
over the defaults dictionary.  Total by construction: no settings-file
content raises. -/
def configLoad (env : String → Option String)
    (file : Option (List String)) : String → Option String :=
  match file with
  | none => defaultsFor env
  | some lines => lines.foldl applyLine (defaultsFor env)

/-- Last well-formed override of key `k` in the file, scanning lines in
order. -/
def overrideStep (k : String) (acc : Option String) (line : String) :
    Option String :=
  match parseLine line with
  | some kv => if kv.1 = k then some kv.2 else acc
  | none => acc

/-- The value the last well-formed `k = v` line assigns to `k`, if any. -/
def lastOverride (lines : List String) (k : String) : Option String :=
  lines.foldl (overrideStep k) none

theorem overrideStep_foldl_init (k : String) (lines : List String) :
    ∀ a : Option String,
      List.foldl (overrideStep k) a lines =
        (List.foldl (overrideStep k) none lines).elim a some := by
  induction lines with
  | nil => intro a; rfl
  | cons l ls ih =>
    intro a
    rw [List.foldl_cons, List.foldl_cons, ih (overrideStep k a l),
      ih (overrideStep k none l)]
    cases hres : List.foldl (overrideStep k) none ls with
    | some v => rfl
    | none =>
      simp only [Option.elim_none]
      rw [overrideStep, overrideStep]
      cases parseLine l with
      | none => rfl
      | some kv =>
        simp only
        split_ifs <;> rfl

theorem configLoad_foldl_lookup (lines : List String) (k : String) :
    ∀ m : String → Option String,
      (List.foldl applyLine m lines) k =
        (lastOverride lines k).elim (m k) some := by
  induction lines with
  | nil => intro m; rfl
  | cons l ls ih =>
    intro m
    rw [List.foldl_cons, ih (applyLine m l)]
    have hlast : lastOverride (l :: ls) k =
        (lastOverride ls k).elim (overrideStep k none l) some := by
      rw [lastOverride, List.foldl_cons, overrideStep_foldl_init]
      rfl
    rw [hlast]
    cases hres : lastOverride ls k with
    | some v => rfl
    | none =>
      simp only [Option.elim_none]
      rw [applyLine, overrideStep]
      cases parseLine l with
      | none => rfl
      | some kv =>
        simp only
        by_cases hk : k = kv.1
        · rw [if_pos hk, if_pos hk.symm]
          rfl
        · rw [if_neg hk, if_neg (fun h => hk h.symm)]
          rfl

/-- C10. For every settings-file content (missing file included), the
config loader — a total function, so it never raises — returns a mapping
that binds every one of the six built-in keys: to the value of the last
well-formed `KEY=VALUE` line for that key when one exists (overriding the
default key by key; malformed, empty, `=`-less, empty-key and `#` lines
are skipped by `parseLine`), and to the built-in default otherwise. -/
theorem config_load_builtin_keys (env : String → Option String)
    (file : Option (List String)) (k : String) (hk : k ∈ builtinKeys) :
    configLoad env file k =
      some ((match file with
        | none => none
        | some lines => lastOverride lines k).getD (builtinDefault env k)) := by
  cases file with
  | none =>
    simp only [configLoad, defaultsFor, Option.getD_none]
    rw [if_pos hk]
  | some lines =>
    rw [configLoad, configLoad_foldl_lookup lines k (defaultsFor env)]
    show (lastOverride lines k).elim (defaultsFor env k) some =
      some ((lastOverride lines k).getD (builtinDefault env k))
    cases hres : lastOverride lines k with
    | none =>
      simp only [Option.elim_none, Option.getD_none, defaultsFor]
      rw [if_pos hk]
    | some v => rfl

/-- Witness for C10: a file with a comment, a malformed line, an
empty-key line, a well-formed override of `SEGMENT_TIME` and a blank
line; the override wins for `SEGMENT_TIME` and `CAMERA_IP` keeps its
default. -/
theorem config_load_builtin_keys_witness :
    configLoad (fun _ => none)
      (some ["# comment", "junk", "=900", "SEGMENT_TIME = \"600\"", "  "])
      "SEGMENT_TIME" = some "600" ∧
    configLoad (fun _ => none)
      (some ["# comment", "junk", "=900", "SEGMENT_TIME = \"600\"", "  "])
      "CAMERA_IP" = some "192.168.1.163" := by
  constructor
  · have h := config_load_builtin_keys (fun _ => none)
      (some ["# comment", "junk", "=900", "SEGMENT_TIME = \"600\"", "  "])
      "SEGMENT_TIME" (by decide)
    rw [h]
    decide
  · have h := config_load_builtin_keys (fun _ => none)
      (some ["# comment", "junk", "=900", "SEGMENT_TIME = \"600\"", "  "])
      "CAMERA_IP" (by decide)
    rw [h]
    decide

end CatCam
